import Mathlib

set_option maxRecDepth 100000

/-!
Verification of the `kernel-testbed` Jupyter kernel conformance harness
(`src/harness.rs`, `src/tests.rs`, `src/types.rs`, `src/snippets.rs`,
`src/main.rs`).

The Rust code drives a kernel over five ZeroMQ channels.  We shallowly embed
the pure decision logic: the per-request IOPub drain loop, the stdin
interleaving loop, the shutdown sequence, the suite runner's control flow, the
result types of `types.rs`, the per-check result classification of `tests.rs`,
and the language snippet catalog of `snippets.rs`.

Channel input is modelled as a finite list of read events, each tagged with the
wall-clock duration that read consumed; exhausting the list stands for the
point after which only empty 100 ms reads would follow, which the code turns
into `Timeout("iopub idle")` once the deadline passes.  Wall time is a `Nat`
count of milliseconds.
-/

/-- `ReplyStatus` from `jupyter_protocol::messaging`. -/
inductive ReplyStatus
  | ok
  | error
  | aborted
deriving DecidableEq

/-- `ExecutionState` from `jupyter_protocol::messaging`. -/
inductive ExecutionState
  | busy
  | idle
  | starting
deriving DecidableEq

/-- `Stdio` stream name from `jupyter_protocol::messaging`. -/
inductive StdioKind
  | stdout
  | stderr
deriving DecidableEq

/-- The message payloads the harness inspects (`JupyterMessageContent`);
variants the checks never destructure are collapsed into `other` with the
protocol message-type name as tag. -/
inductive MsgContent
  | status (s : ExecutionState)
  | stream (name : StdioKind) (text : String)
  | executeReply (st : ReplyStatus)
  | executeInput
  | displayData
  | updateDisplayData
  | executeResult
  | errorOutput
  | other (tag : String)
deriving DecidableEq

/-- A message as the harness sees it: its own header id, the parent header's
id when a parent header is present, and the content. -/
structure JupyterMsg where
  msgId : String
  parentMsgId : Option String
  content : MsgContent
deriving DecidableEq

/-- `HarnessError` from `src/harness.rs`. -/
inductive HarnessErr
  | launchFailed (s : String)
  | connectionFailed (s : String)
  | timeout (s : String)
  | protocolError (s : String)
  | ioError (s : String)
  | runtimeError (s : String)
deriving DecidableEq

/-- The `thiserror` `Display` strings of `HarnessError` (`#[error("...")]`
attributes in `src/harness.rs`), used by the checks via `e.to_string()`. -/
def herrToString : HarnessErr → String
  | .launchFailed s => "Kernel launch failed: " ++ s
  | .connectionFailed s => "Connection failed: " ++ s
  | .timeout s => "Timeout waiting for " ++ s
  | .protocolError s => "Protocol error: " ++ s
  | .ioError s => "IO error: " ++ s
  | .runtimeError s => "Runtime error: " ++ s

/-- The protocol message-type name, as `message_type()` identifies messages in
the "Expected X, got Y" failure reasons (the exact rendering of the Rust
`Debug` formatting is abstracted to the protocol name). -/
def msgTypeName : MsgContent → String
  | .status _ => "status"
  | .stream _ _ => "stream"
  | .executeReply _ => "execute_reply"
  | .executeInput => "execute_input"
  | .displayData => "display_data"
  | .updateDisplayData => "update_display_data"
  | .executeResult => "execute_result"
  | .errorOutput => "error"
  | .other tag => tag

/-- Whether a message is a `Status` broadcast with `execution_state == Idle`
(the `matches!` test in the drain loops of `src/harness.rs`). -/
def isIdleMsg (m : JupyterMsg) : Bool :=
  match m.content with
  | .status s => decide (s = ExecutionState.idle)
  | _ => false

/-- One outcome of `timeout(Duration::from_millis(_), self.iopub.read())`:
a message, a read error, or an empty (timed-out) read. -/
inductive ReadEvent
  | msg (m : JupyterMsg)
  | readErr (e : String)
  | tick
deriving DecidableEq

/-- The IOPub drain loop shared verbatim by `execute_and_collect`
(`src/harness.rs:313-344`) and `shell_request_with_iopub`
(`src/harness.rs:241-271`).  Each event carries the duration its read
consumed; `elapsed` is the `start.elapsed()` value checked against
`self.test_timeout` at the top of every iteration.  Running out of events
stands for a tail of empty reads, which ends in the same
`Timeout("iopub idle")` the deadline produces. -/
def drainIopub (t : Nat) (msgId : String) :
    List (ReadEvent × Nat) → Nat → List JupyterMsg →
    Except HarnessErr (List JupyterMsg)
  | [], _, _ => .error (HarnessErr.timeout "iopub idle")
  | (ev, d) :: rest, elapsed, acc =>
    if t < elapsed then .error (HarnessErr.timeout "iopub idle")
    else
      match ev with
      | .msg m =>
        if m.parentMsgId = some msgId then
          if isIdleMsg m then .ok (acc ++ [m])
          else drainIopub t msgId rest (elapsed + d) (acc ++ [m])
        else drainIopub t msgId rest (elapsed + d) acc
      | .readErr e => .error (HarnessErr.protocolError e)
      | .tick => drainIopub t msgId rest (elapsed + d) acc

/-- `KernelUnderTest::execute_and_collect` (`src/harness.rs:300-353`): send the
execute_request (`sendErr` is the send outcome), drain IOPub until the
matching Idle status, then read the execute_reply from shell (`shellRead` is
that read's outcome, already folded through its own timeout). -/
def executeAndCollect (t : Nat) (msgId : String) (sendErr : Option String)
    (events : List (ReadEvent × Nat)) (shellRead : Except HarnessErr JupyterMsg) :
    Except HarnessErr (JupyterMsg × List JupyterMsg) :=
  match sendErr with
  | some e => .error (HarnessErr.protocolError e)
  | none =>
    match drainIopub t msgId events 0 [] with
    | .error e => .error e
    | .ok msgs =>
      match shellRead with
      | .error e => .error e
      | .ok reply => .ok (reply, msgs)

/-- `KernelUnderTest::shell_request_with_iopub` (`src/harness.rs:229-280`);
its loop is textually identical to the one in `execute_and_collect`. -/
def shellRequestWithIopub (t : Nat) (msgId : String) (sendErr : Option String)
    (events : List (ReadEvent × Nat)) (shellRead : Except HarnessErr JupyterMsg) :
    Except HarnessErr (JupyterMsg × List JupyterMsg) :=
  match sendErr with
  | some e => .error (HarnessErr.protocolError e)
  | none =>
    match drainIopub t msgId events 0 [] with
    | .error e => .error e
    | .ok msgs =>
      match shellRead with
      | .error e => .error e
      | .ok reply => .ok (reply, msgs)

/-- The messages among a list of read events. -/
def eventMsgs (events : List (ReadEvent × Nat)) : List JupyterMsg :=
  events.filterMap (fun p =>
    match p.1 with
    | .msg m => some m
    | _ => none)

/-- The messages whose parent header carries the request id, in arrival
order: what the kernel "emits for this request". -/
def matchingMsgs (msgId : String) (events : List (ReadEvent × Nat)) :
    List JupyterMsg :=
  (eventMsgs events).filter (fun m => decide (m.parentMsgId = some msgId))

/-- Total wall time the listed reads consume. -/
def durSum (events : List (ReadEvent × Nat)) : Nat :=
  (events.map (fun p => p.2)).sum

/-- No read on the channel fails outright. -/
def noReadErr (events : List (ReadEvent × Nat)) : Bool :=
  events.all (fun p =>
    match p.1 with
    | .readErr _ => false
    | _ => true)

/-- No Idle status with matching parent header among the events. -/
def noMatchingIdle (msgId : String) (events : List (ReadEvent × Nat)) : Bool :=
  events.all (fun p =>
    match p.1 with
    | .msg m => !(decide (m.parentMsgId = some msgId) && isIdleMsg m)
    | _ => true)

/-- One outcome of `timeout(Duration::from_millis(50), self.stdin.read())` in
`execute_with_stdin`: an input_request (whose header id is `hdr`, and whose
reply send may fail with `sendErr`), some other stdin message, a read error
(only logged), or an empty read. -/
inductive StdinEvent
  | inputReq (hdr : String) (sendErr : Option String)
  | otherMsg
  | readErr (e : String)
  | tick
deriving DecidableEq

/-- An `input_reply` as `execute_with_stdin` constructs and sends it:
`JupyterMessage::new(InputReply { value, status: Ok, error: None }, Some(&stdin_msg))`. -/
structure SentReply where
  parentHdr : String
  value : String
  status : ReplyStatus
deriving DecidableEq

/-- The combined stdin/IOPub polling loop of `KernelUnderTest::execute_with_stdin`
(`src/harness.rs:377-432`).  Each iteration first polls stdin (an
input_request sets the `saw` flag and sends an input_reply carrying the mock
response; stdin read errors are only logged), then polls IOPub exactly as
`drainIopub` does.  `sent` is the trace of input_replies sent so far. -/
def drainStdin (t : Nat) (msgId mock : String) :
    List (StdinEvent × ReadEvent × Nat) → Nat → List JupyterMsg → Bool →
    List SentReply → Except HarnessErr (List JupyterMsg × Bool × List SentReply)
  | [], _, _, _, _ => .error (HarnessErr.timeout "iopub idle (stdin test)")
  | (se, ie, d) :: rest, elapsed, acc, saw, sent =>
    if t < elapsed then .error (HarnessErr.timeout "iopub idle (stdin test)")
    else
      match
        (match se with
         | .inputReq hdr sendErr =>
           match sendErr with
           | some e => Except.error e
           | none => Except.ok (true, sent ++ [⟨hdr, mock, ReplyStatus.ok⟩])
         | _ => Except.ok (saw, sent) :
          Except String (Bool × List SentReply))
      with
      | .error e => .error (HarnessErr.protocolError e)
      | .ok (saw2, sent2) =>
        match ie with
        | .msg m =>
          if m.parentMsgId = some msgId then
            if isIdleMsg m then .ok (acc ++ [m], saw2, sent2)
            else drainStdin t msgId mock rest (elapsed + d) (acc ++ [m]) saw2 sent2
          else drainStdin t msgId mock rest (elapsed + d) acc saw2 sent2
        | .readErr e => .error (HarnessErr.protocolError e)
        | .tick => drainStdin t msgId mock rest (elapsed + d) acc saw2 sent2

/-- `KernelUnderTest::execute_with_stdin` (`src/harness.rs:358-441`).  Returns
what the Rust function returns — the execute_reply, the collected IOPub
messages and the `received_input_request` flag — paired with the trace of
input_replies sent on the stdin channel (an observable effect of the call). -/
def executeWithStdin (t : Nat) (msgId mock : String) (sendErr : Option String)
    (events : List (StdinEvent × ReadEvent × Nat))
    (shellRead : Except HarnessErr JupyterMsg) :
    Except HarnessErr ((JupyterMsg × List JupyterMsg × Bool) × List SentReply) :=
  match sendErr with
  | some e => .error (HarnessErr.protocolError e)
  | none =>
    match drainStdin t msgId mock events 0 [] false [] with
    | .error e => .error e
    | .ok (msgs, saw, sent) =>
      match shellRead with
      | .error e => .error e
      | .ok reply => .ok ((reply, msgs, saw), sent)

/-- Whether an IOPub read event is the terminating matching-Idle status. -/
def isMatchingIdle (msgId : String) : ReadEvent → Bool
  | .msg m => decide (m.parentMsgId = some msgId) && isIdleMsg m
  | _ => false

/-- The header ids of the input_requests the loop handles before (and in the
same iteration as) the terminating matching-Idle status: stdin is polled
before IOPub in each iteration. -/
def stdinReqsBeforeIdle (msgId : String) :
    List (StdinEvent × ReadEvent × Nat) → List String
  | [] => []
  | (se, ie, _) :: rest =>
    let hs : List String :=
      match se with
      | .inputReq h _ => [h]
      | _ => []
    if isMatchingIdle msgId ie then hs
    else hs ++ stdinReqsBeforeIdle msgId rest

/-- What the file system and the child process look like to `shutdown`. -/
structure ShutdownState where
  connectionFileExists : Bool
  processAlive : Bool
deriving DecidableEq

/-- `self.control_request(ShutdownRequest { restart: false })`: the send/read
round trip may fail; `shutdown` binds the result to `_`. -/
def controlShutdownStep (outcome : Except String Unit) (trace : List String) :
    Except String Unit × List String :=
  (outcome, trace ++ ["shutdown_request"])

/-- `self.process.kill()`: killing errors when the process is already gone,
and in either case the process is not alive afterwards. -/
def killStep (s : ShutdownState) (trace : List String) :
    Except String Unit × ShutdownState × List String :=
  if s.processAlive then
    (.ok (), { s with processAlive := false }, trace ++ ["kill"])
  else
    (.error "no such process", { s with processAlive := false }, trace ++ ["kill"])

/-- `tokio::fs::remove_file(&self.connection_path)`: removing errors when the
file is already gone, and in either case the file is absent afterwards. -/
def removeFileStep (s : ShutdownState) (trace : List String) :
    Except String Unit × ShutdownState × List String :=
  if s.connectionFileExists then
    (.ok (), { s with connectionFileExists := false }, trace ++ ["remove_file"])
  else
    (.error "not found", { s with connectionFileExists := false },
     trace ++ ["remove_file"])

/-- `KernelUnderTest::shutdown` (`src/harness.rs:498-512`): send the shutdown
request, force-kill the child, remove the connection file.  Every step's
result is bound to `_` (discarded), and the function ends in `Ok(())`.
Returns the result, the final world state, and the trace of attempted steps. -/
def shutdown (controlOutcome : Except String Unit) (s : ShutdownState) :
    Except HarnessErr Unit × ShutdownState × List String :=
  let (_r1, tr1) := controlShutdownStep controlOutcome []
  let (_r2, s1, tr2) := killStep s tr1
  let (_r3, s2, tr3) := removeFileStep s1 tr2
  (.ok (), s2, tr3)

/-- `FailureKind` from `src/types.rs`. -/
inductive FailureKind
  | timeout
  | protocolError
  | unexpectedMessageType
  | unexpectedContent
  | kernelError
  | harnessError
deriving DecidableEq

/-- `TestCategory` from `src/types.rs`. -/
inductive TestCategory
  | tier1Basic
  | tier2Interactive
  | tier3RichOutput
  | tier4Advanced
deriving DecidableEq

/-- `TestResult` from `src/types.rs`; `PartialPass`'s `f32` score is carried
as a rational. -/
inductive TestResult
  | pass
  | fail (reason : String) (kind : Option FailureKind)
  | unsupported
  | timeout
  | partialPass (score : ℚ) (notes : String)
deriving DecidableEq

/-- `TestResult::fail` from `src/types.rs`. -/
def TestResult.mkFail (reason : String) (kind : FailureKind) : TestResult :=
  TestResult.fail reason (some kind)

/-- `TestRecord` from `src/types.rs` (`duration` in milliseconds). -/
structure TestRecord where
  name : String
  category : TestCategory
  description : String
  messageType : String
  result : TestResult
  duration : Nat
deriving DecidableEq

/-- `KernelReport` from `src/types.rs` (`timestamp` abstracted to a `Nat`). -/
structure KernelReport where
  kernelName : String
  language : String
  implementation : String
  protocolVersion : String
  results : List TestRecord
  timestamp : Nat
  totalDuration : Nat
  startupError : Option String
deriving DecidableEq

/-- `KernelReport::new_failed_at_startup` (`src/types.rs:199-223`). -/
def KernelReport.newFailedAtStartup (kernelName language error : String)
    (totalDuration : Nat) (timestamp : Nat) : KernelReport :=
  { kernelName := kernelName
    language := language
    implementation := "unknown"
    protocolVersion := "unknown"
    results := [{ name := "kernel_startup"
                  category := TestCategory.tier1Basic
                  description := "Kernel starts and responds to kernel_info_request"
                  messageType := "kernel_info_request"
                  result := TestResult.mkFail error FailureKind.protocolError
                  duration := totalDuration }]
    timestamp := timestamp
    totalDuration := totalDuration
    startupError := some error }

/-- The part of `KernelInfoReply` the suite runner reads. -/
structure KernelInfoModel where
  language : String
  implementation : String
  protocolVersion : String
deriving DecidableEq

/-- A launched kernel as the suite runner sees one: its name and the
kernel_info fetched during `launch` (`None` never occurs after a successful
launch, but the runner re-checks it). -/
structure KernelModel where
  kernelName : String
  kernelInfo : Option KernelInfoModel

/-- `ConformanceTest` from `src/harness.rs:516-524`; `run` is the check's
observable result on this kernel. -/
structure ConformanceTestModel where
  name : String
  category : TestCategory
  description : String
  messageType : String
  run : KernelModel → TestResult

/-- `run_conformance_suite` (`src/harness.rs:527-579`).  `launchResult` is the
outcome of `KernelUnderTest::launch(...)`, to which the runner applies `?`.
Per-test durations and the clock are abstracted (`0` and the `timestamp`,
`totalDuration` arguments). -/
def runConformanceSuite (launchResult : Except HarnessErr KernelModel)
    (tiers : List TestCategory) (tests : List ConformanceTestModel)
    (timestamp totalDuration : Nat) : Except HarnessErr KernelReport :=
  match launchResult with
  | .error e => .error e
  | .ok kernel =>
    match kernel.kernelInfo with
    | none => .error (HarnessErr.protocolError "No kernel info")
    | some info =>
      let selected := tests.filter (fun tst => tiers.contains tst.category)
      let results := selected.map (fun tst =>
        { name := tst.name
          category := tst.category
          description := tst.description
          messageType := tst.messageType
          result := tst.run kernel
          duration := 0 : TestRecord })
      .ok { kernelName := kernel.kernelName
            language := info.language
            implementation := info.implementation
            protocolVersion := info.protocolVersion
            results := results
            timestamp := timestamp
            totalDuration := totalDuration
            startupError := none }

/-- The names of the checks the suite actually runs: none when launch fails
(the `?` returns before the loop over `tests`). -/
def suiteTestsRun (launchResult : Except HarnessErr KernelModel)
    (tiers : List TestCategory) (tests : List ConformanceTestModel) :
    List String :=
  match launchResult with
  | .error _ => []
  | .ok _ => (tests.filter (fun tst => tiers.contains tst.category)).map
      (fun tst => tst.name)

/-- Whether `small` starts the list `l` (`char`-wise). -/
def startsWithList : List Char → List Char → Bool
  | [], _ => true
  | _ :: _, [] => false
  | a :: as, b :: bs => a == b && startsWithList as bs

/-- Whether `pat` occurs somewhere in `l` (Rust `str::contains` on chars). -/
def containsList (pat : List Char) : List Char → Bool
  | [] => pat.isEmpty
  | c :: rest => startsWithList pat (c :: rest) || containsList pat rest

/-- Rust `str::contains` for plain substring patterns. -/
def strContains (s pat : String) : Bool :=
  containsList pat.data s.data

/-- `test_heartbeat_responds` (`src/tests.rs:22-31`) as a function of the
driver outcome `kernel.heartbeat().await`. -/
def testHeartbeatResponds (hb : Except HarnessErr Unit) : TestResult :=
  match hb with
  | .ok _ => TestResult.pass
  | .error e => TestResult.mkFail (herrToString e) FailureKind.timeout

/-- The stdout scan of `test_execute_stdout`: some stream message on stdout
whose text contains "hello". -/
def hasHelloStdout (iopub : List JupyterMsg) : Bool :=
  iopub.any (fun m =>
    match m.content with
    | .stream StdioKind.stdout text => strContains text "hello"
    | _ => false)

/-- `test_execute_stdout` (`src/tests.rs:98-127`) as a function of the driver
outcome `kernel.execute_and_collect(&code).await`. -/
def testExecuteStdout (r : Except HarnessErr (JupyterMsg × List JupyterMsg)) :
    TestResult :=
  match r with
  | .ok (_, iopub) =>
    if hasHelloStdout iopub then TestResult.pass
    else TestResult.fail "No stdout containing 'hello'" none
  | .error e => TestResult.fail (herrToString e) none

/-- The `Debug` rendering of a `ReplyStatus`, as `format!("{:?}", er.status)`
prints it. -/
def replyStatusRepr : ReplyStatus → String
  | .ok => "Ok"
  | .error => "Error"
  | .aborted => "Aborted"

/-- `test_execute_reply_ok` (`src/tests.rs:160-186`) as a function of the
driver outcome. -/
def testExecuteReplyOk (r : Except HarnessErr (JupyterMsg × List JupyterMsg)) :
    TestResult :=
  match r with
  | .ok (reply, _) =>
    match reply.content with
    | .executeReply st =>
      if st = ReplyStatus.ok then TestResult.pass
      else TestResult.mkFail ("execute_reply status: " ++ replyStatusRepr st)
        FailureKind.kernelError
    | c => TestResult.mkFail ("Expected execute_reply, got " ++ msgTypeName c)
        FailureKind.unexpectedMessageType
  | .error e => TestResult.mkFail (herrToString e) FailureKind.harnessError

/-- The execution state a message broadcasts, when it is a Status message. -/
def statusOf (m : JupyterMsg) : Option ExecutionState :=
  match m.content with
  | .status s => some s
  | _ => none

/-- The `statuses` vector of `test_status_busy_idle_lifecycle`:
`iopub.iter().filter_map(...)` keeping Status execution states. -/
def statusesOf (iopub : List JupyterMsg) : List ExecutionState :=
  iopub.filterMap statusOf

/-- The index of the first element satisfying `p`
(`Iterator::position` in Rust). -/
def firstIdx {α : Type} (p : α → Bool) : List α → Option Nat
  | [] => none
  | a :: l => if p a then some 0 else (firstIdx p l).map (· + 1)

/-- Rust's `Ord` on `Option<usize>` restricted to `<`:
`None < Some _`, and `Some a < Some b` iff `a < b`. -/
def rustOptLt : Option Nat → Option Nat → Bool
  | none, none => false
  | none, some _ => true
  | some _, none => false
  | some a, some b => decide (a < b)

/-- The body of `test_status_busy_idle_lifecycle` on a successfully collected
IOPub trace (`src/tests.rs:194-226`). -/
def busyIdleCheck (iopub : List JupyterMsg) : TestResult :=
  let statuses := statusesOf iopub
  let hasBusy := statuses.any (fun s => decide (s = ExecutionState.busy))
  let hasIdle := statuses.any (fun s => decide (s = ExecutionState.idle))
  if hasBusy && hasIdle then
    let busyIdx := firstIdx (fun s => decide (s = ExecutionState.busy)) statuses
    let idleIdx := firstIdx (fun s => decide (s = ExecutionState.idle)) statuses
    if rustOptLt busyIdx idleIdx then TestResult.pass
    else TestResult.fail "idle came before busy" none
  else
    TestResult.fail ("Missing status: busy=" ++ toString hasBusy ++
      ", idle=" ++ toString hasIdle) none

/-- `test_status_busy_idle_lifecycle` (`src/tests.rs:188-232`) as a function
of the driver outcome. -/
def testStatusBusyIdleLifecycle
    (r : Except HarnessErr (JupyterMsg × List JupyterMsg)) : TestResult :=
  match r with
  | .ok (_, iopub) => busyIdleCheck iopub
  | .error e => TestResult.fail (herrToString e) none

/-- Whether a message is a Status(Busy) broadcast. -/
def isBusyMsg (m : JupyterMsg) : Bool :=
  decide (statusOf m = some ExecutionState.busy)

/-- Whether a message is a Status(Idle) broadcast (same predicate as
`isIdleMsg`, phrased through `statusOf`). -/
def isIdleStat (m : JupyterMsg) : Bool :=
  decide (statusOf m = some ExecutionState.idle)

/-- `LanguageSnippets` from `src/snippets.rs`. -/
structure LanguageSnippets where
  language : String
  print_hello : String
  print_stderr : String
  simple_expr : String
  simple_expr_result : String
  incomplete_code : String
  complete_code : String
  syntax_error : String
  input_prompt : String
  sleep_code : String
  completion_var : String
  completion_setup : String
  completion_prefix : String
  display_data_code : String
  update_display_data_code : String
  rich_execute_result_code : String
deriving DecidableEq

/-- `LanguageSnippets::python` (`src/snippets.rs:65-84`). -/
def pythonSnippets : LanguageSnippets where
  language := "python"
  print_hello := "print('hello')"
  print_stderr := "import sys; print('error', file=sys.stderr)"
  simple_expr := "1 + 1"
  simple_expr_result := "2"
  incomplete_code := "def foo("
  complete_code := "x = 1"
  syntax_error := "def class"
  input_prompt := "input('Enter: ')"
  sleep_code := "import time; time.sleep(2)"
  completion_var := "test_variable_for_completion"
  completion_setup := "test_variable_for_completion = 42"
  completion_prefix := "test_variable_for_"
  display_data_code := "from IPython.display import display, HTML; display(HTML('<b>bold</b>'))"
  update_display_data_code := "from IPython.display import display, HTML, update_display; dh = display(HTML('<b>initial</b>'), display_id=True); update_display(HTML('<b>updated</b>'), display_id=dh.display_id)"
  rich_execute_result_code := "from IPython.display import HTML; HTML('<b>bold</b>')"

/-- `LanguageSnippets::r` (`src/snippets.rs:86-109`). -/
def rSnippets : LanguageSnippets where
  language := "r"
  print_hello := "cat('hello\\n')"
  print_stderr := "cat('error\\n', file=stderr())"
  simple_expr := "1 + 1"
  simple_expr_result := "[1] 2"
  incomplete_code := "function("
  complete_code := "x <- 1"
  syntax_error := "function function"
  input_prompt := "readline('Enter: ')"
  sleep_code := "Sys.sleep(2)"
  completion_var := "test_variable_for_completion"
  completion_setup := "test_variable_for_completion <- 42"
  completion_prefix := "test_variable_for_"
  display_data_code := "plot(1:10)"
  update_display_data_code := "plot(1:5); Sys.sleep(0.1); plot(6:10)"
  rich_execute_result_code := "data.frame(x = 1:3, y = c('a', 'b', 'c'))"

/-- `LanguageSnippets::rust` (`src/snippets.rs:111-139`). -/
def rustSnippets : LanguageSnippets where
  language := "rust"
  print_hello := "println!(\"hello\");"
  print_stderr := "eprintln!(\"error\");"
  simple_expr := "1 + 1"
  simple_expr_result := "2"
  incomplete_code := "fn foo("
  complete_code := "let x = 1;"
  syntax_error := "fn fn"
  input_prompt := "// Rust kernel doesn't support stdin"
  sleep_code := "std::thread::sleep(std::time::Duration::from_secs(2));"
  completion_var := "test_variable_for_completion"
  completion_setup := "let test_variable_for_completion = 42;"
  completion_prefix := "test_variable_for_"
  display_data_code := "// evcxr uses execute_result for rich output, not display_data"
  update_display_data_code := "// evcxr doesn't support update_display_data (no display_id)"
  rich_execute_result_code := "pub struct Html(pub &'static str);\nimpl Html \x7b\n    pub fn evcxr_display(&self) \x7b\n        println!(\"EVCXR_BEGIN_CONTENT text/html\\n\x7b\x7d\\nEVCXR_END_CONTENT\", self.0);\n    \x7d\n\x7d\nHtml(\"<b>bold</b>\")"

/-- `LanguageSnippets::julia` (`src/snippets.rs:141-161`). -/
def juliaSnippets : LanguageSnippets where
  language := "julia"
  print_hello := "println(\"hello\")"
  print_stderr := "println(stderr, \"error\")"
  simple_expr := "1 + 1"
  simple_expr_result := "2"
  incomplete_code := "function foo("
  complete_code := "x = 1"
  syntax_error := "function function"
  input_prompt := "readline()"
  sleep_code := "sleep(2)"
  completion_var := "test_variable_for_completion"
  completion_setup := "test_variable_for_completion = 42"
  completion_prefix := "test_variable_for_"
  display_data_code := "display(\"text/html\", \"<b>bold</b>\")"
  update_display_data_code := "# Julia update_display varies by environment"
  rich_execute_result_code := "HTML(\"<b>bold</b>\")"

/-- `LanguageSnippets::typescript` (`src/snippets.rs:163-183`). -/
def typescriptSnippets : LanguageSnippets where
  language := "typescript"
  print_hello := "console.log('hello')"
  print_stderr := "console.error('error')"
  simple_expr := "1 + 1"
  simple_expr_result := "2"
  incomplete_code := "function foo("
  complete_code := "const x = 1"
  syntax_error := "function function"
  input_prompt := "prompt('Enter: ')"
  sleep_code := "await new Promise(r => setTimeout(r, 2000))"
  completion_var := "testVariableForCompletion"
  completion_setup := "const testVariableForCompletion = 42"
  completion_prefix := "testVariableFor"
  display_data_code := "await Deno.jupyter.broadcast(\"display_data\", \x7b data: \x7b \"text/html\": \"<b>bold</b>\" \x7d, metadata: \x7b\x7d, transient: \x7b\x7d \x7d)"
  update_display_data_code := "await Deno.jupyter.broadcast(\"display_data\", \x7b data: \x7b \"text/html\": \"<b>initial</b>\" \x7d, metadata: \x7b\x7d, transient: \x7b display_id: \"test_update\" \x7d \x7d); await Deno.jupyter.broadcast(\"update_display_data\", \x7b data: \x7b \"text/html\": \"<b>updated</b>\" \x7d, metadata: \x7b\x7d, transient: \x7b display_id: \"test_update\" \x7d \x7d)"
  rich_execute_result_code := "Deno.jupyter.html(\"<b>bold</b>\")"

/-- `LanguageSnippets::go` (`src/snippets.rs:185-211`). -/
def goSnippets : LanguageSnippets where
  language := "go"
  print_hello := "fmt.Println(\"hello\")"
  print_stderr := "fmt.Fprintln(os.Stderr, \"error\")"
  simple_expr := "1 + 1"
  simple_expr_result := "2"
  incomplete_code := "func foo("
  complete_code := "x := 1"
  syntax_error := "func func"
  input_prompt := "import \"github.com/janpfeifer/gonb/gonbui\"\ngonbui.RequestInput(\"Enter: \", false)"
  sleep_code := "time.Sleep(2 * time.Second)"
  completion_var := "testVariableForCompletion"
  completion_setup := "testVariableForCompletion := 42"
  completion_prefix := "testVariableFor"
  display_data_code := "import \"github.com/janpfeifer/gonb/gonbui\"\ngonbui.DisplayHtml(\"<b>bold</b>\")"
  update_display_data_code := "import \"github.com/janpfeifer/gonb/gonbui\"\nid := gonbui.UniqueId()\ngonbui.UpdateHtml(id, \"<b>initial</b>\")\ngonbui.UpdateHtml(id, \"<b>updated</b>\")"
  rich_execute_result_code := "// Go uses display_data for rich output"

/-- `LanguageSnippets::scala` (`src/snippets.rs:213-234`). -/
def scalaSnippets : LanguageSnippets where
  language := "scala"
  print_hello := "println(\"hello\")"
  print_stderr := "System.err.println(\"error\")"
  simple_expr := "1 + 1"
  simple_expr_result := "2"
  incomplete_code := "def foo("
  complete_code := "val x = 1"
  syntax_error := "def def"
  input_prompt := "scala.io.StdIn.readLine()"
  sleep_code := "Thread.sleep(2000)"
  completion_var := "testVariableForCompletion"
  completion_setup := "val testVariableForCompletion = 42"
  completion_prefix := "testVariableFor"
  display_data_code := "kernel.publish.html(\"<b>bold</b>\")"
  update_display_data_code := "val id = java.util.UUID.randomUUID().toString; kernel.publish.html(\"<b>initial</b>\", id); kernel.publish.updateHtml(\"<b>updated</b>\", id)"
  rich_execute_result_code := "Html(\"<b>bold</b>\")"

/-- `LanguageSnippets::cpp` (`src/snippets.rs:236-276`). -/
def cppSnippets : LanguageSnippets where
  language := "c++"
  print_hello := "#include <iostream>\nstd::cout << \"hello\" << std::endl;"
  print_stderr := "#include <iostream>\nstd::cerr << \"error\" << std::endl;"
  simple_expr := "1 + 1"
  simple_expr_result := "2"
  incomplete_code := "int foo("
  complete_code := "int x = 1;"
  syntax_error := "int int;"
  input_prompt := "// C++ kernel stdin varies"
  sleep_code := "#include <thread>\n#include <chrono>\nstd::this_thread::sleep_for(std::chrono::seconds(2));"
  completion_var := "test_variable_for_completion"
  completion_setup := "int test_variable_for_completion = 42;"
  completion_prefix := "test_variable_for_"
  display_data_code := "#include <string>\n#include \"xcpp/xdisplay.hpp\"\n\nstruct html_content \x7b\n    std::string content;\n\x7d;\n\n#include \"nlohmann/json.hpp\"\nnlohmann::json mime_bundle_repr(const html_content& h) \x7b\n    auto bundle = nlohmann::json::object();\n    bundle[\"text/html\"] = h.content;\n    return bundle;\n\x7d\n\nhtml_content h\x7b\"<b>bold</b>\"\x7d;\nxcpp::display(h);"
  update_display_data_code := "// xeus-cling update_display_data requires display_id handling"
  rich_execute_result_code := "// C++ uses display_data for rich output"

/-- `LanguageSnippets::sql` (`src/snippets.rs:278-301`). -/
def sqlSnippets : LanguageSnippets where
  language := "sql"
  print_hello := "SELECT 'hello' AS message;"
  print_stderr := "-- SQL doesn't have stderr; errors come from invalid queries"
  simple_expr := "SELECT 1 + 1 AS result;"
  simple_expr_result := "2"
  incomplete_code := "SELECT * FROM"
  complete_code := "SELECT 1;"
  syntax_error := "SELEC * FORM table;"
  input_prompt := "-- SQL kernel doesn't support stdin"
  sleep_code := "-- SQL sleep varies by database backend"
  completion_var := "test_table"
  completion_setup := "CREATE TABLE IF NOT EXISTS test_table (id INTEGER);"
  completion_prefix := "test_"
  display_data_code := "SELECT 1 AS col1, 2 AS col2, 3 AS col3;"
  update_display_data_code := "-- SQL doesn't support update_display_data"
  rich_execute_result_code := "SELECT 1 AS col1, 2 AS col2, 3 AS col3;"

/-- `LanguageSnippets::lua` (`src/snippets.rs:303-324`). -/
def luaSnippets : LanguageSnippets where
  language := "lua"
  print_hello := "print('hello')"
  print_stderr := "io.stderr:write('error\\n')"
  simple_expr := "return 1 + 1"
  simple_expr_result := "2"
  incomplete_code := "function foo("
  complete_code := "x = 1"
  syntax_error := "function function"
  input_prompt := "io.read()"
  sleep_code := "-- Lua sleep requires os.execute or socket"
  completion_var := "test_variable_for_completion"
  completion_setup := "test_variable_for_completion = 42"
  completion_prefix := "test_variable_for_"
  display_data_code := "ilua.display.html('<b>bold</b>')"
  update_display_data_code := "-- Lua doesn't support update_display_data"
  rich_execute_result_code := "// Lua uses display_data for rich output"

/-- `LanguageSnippets::haskell` (`src/snippets.rs:326-347`). -/
def haskellSnippets : LanguageSnippets where
  language := "haskell"
  print_hello := "putStrLn \"hello\""
  print_stderr := "import System.IO; hPutStrLn stderr \"error\""
  simple_expr := "1 + 1"
  simple_expr_result := "2"
  incomplete_code := "let x ="
  complete_code := "let x = 1"
  syntax_error := "let let"
  input_prompt := "-- Haskell stdin varies by kernel"
  sleep_code := "import Control.Concurrent; threadDelay 2000000"
  completion_var := "testVariableForCompletion"
  completion_setup := "let testVariableForCompletion = 42"
  completion_prefix := "testVariableFor"
  display_data_code := "putStrLn \"no rich display\""
  update_display_data_code := "-- Haskell doesn't support update_display_data"
  rich_execute_result_code := "// Haskell doesn't support rich execute_result"

/-- `LanguageSnippets::octave` (`src/snippets.rs:349-370`). -/
def octaveSnippets : LanguageSnippets where
  language := "octave"
  print_hello := "disp('hello')"
  print_stderr := "fprintf(2, 'error\\n')"
  simple_expr := "1 + 1"
  simple_expr_result := "ans = 2"
  incomplete_code := "if true"
  complete_code := "x = 1;"
  syntax_error := "1 +"
  input_prompt := "% Octave stdin doesn't support Jupyter input protocol"
  sleep_code := "pause(2)"
  completion_var := "test_variable_for_completion"
  completion_setup := "test_variable_for_completion = 42;"
  completion_prefix := "test_variable_for_"
  display_data_code := "% Octave plot() requires display - skip in headless CI"
  update_display_data_code := "% Octave update_display varies by environment"
  rich_execute_result_code := "// Octave uses display_data for rich output"

/-- `LanguageSnippets::ocaml` (`src/snippets.rs:372-393`). -/
def ocamlSnippets : LanguageSnippets where
  language := "ocaml"
  print_hello := "print_endline \"hello\""
  print_stderr := "prerr_endline \"error\""
  simple_expr := "1 + 1"
  simple_expr_result := "2"
  incomplete_code := "let foo ("
  complete_code := "let x = 1"
  syntax_error := "let let"
  input_prompt := "read_line ()"
  sleep_code := "Unix.sleep 2"
  completion_var := "test_variable_for_completion"
  completion_setup := "let test_variable_for_completion = 42"
  completion_prefix := "test_variable_for_"
  display_data_code := "#require \"jupyter.notebook\";; Jupyter_notebook.display \"text/html\" \"<b>bold</b>\""
  update_display_data_code := "(* OCaml jupyter doesn't support update_display_data *)"
  rich_execute_result_code := "(* OCaml uses display_data for rich output *)"

/-- `LanguageSnippets::generic` (`src/snippets.rs:396-415`). -/
def genericSnippets (language : String) : LanguageSnippets where
  language := language
  print_hello := "print('hello')"
  print_stderr := "print('error')"
  simple_expr := "1 + 1"
  simple_expr_result := "2"
  incomplete_code := "("
  complete_code := "1"
  syntax_error := "!@#$%"
  input_prompt := "input()"
  sleep_code := "// sleep not available"
  completion_var := "x"
  completion_setup := "x = 1"
  completion_prefix := "x"
  display_data_code := "1"
  update_display_data_code := "// update_display not available"
  rich_execute_result_code := "// rich execute_result not available"

/-- Rust `str::to_lowercase` restricted to the ASCII names matched here. -/
def lowerStr (s : String) : String :=
  String.mk (s.data.map Char.toLower)

/-- `LanguageSnippets::for_language` (`src/snippets.rs:45-63`); the source
binds `let lang = language.to_lowercase()` once, written out here. -/
def forLanguage (language : String) : LanguageSnippets :=
  if lowerStr language = "python" ∨ lowerStr language = "python3" then pythonSnippets
  else if lowerStr language = "r" then rSnippets
  else if lowerStr language = "rust" then rustSnippets
  else if lowerStr language = "julia" then juliaSnippets
  else if lowerStr language = "typescript" ∨ lowerStr language = "javascript" then typescriptSnippets
  else if lowerStr language = "go" then goSnippets
  else if lowerStr language = "scala" then scalaSnippets
  else if lowerStr language = "c++" ∨ lowerStr language = "cpp" then cppSnippets
  else if lowerStr language = "sql" then sqlSnippets
  else if lowerStr language = "lua" then luaSnippets
  else if lowerStr language = "haskell" then haskellSnippets
  else if lowerStr language = "octave" then octaveSnippets
  else if lowerStr language = "ocaml" then ocamlSnippets
  else genericSnippets (lowerStr language)

/-- The unsupported-sentinel test: any of the three sentinel substrings the
spec names. -/
def sentinelIn (c : String) : Bool :=
  strContains c "doesn't support" || strContains c "not available" ||
    strContains c "varies"

/-- The guard of `test_update_display_data` (`src/tests.rs:582-584`). -/
def updateDisplayGuard (code : String) : Bool :=
  strContains code "doesn't support" || strContains code "not available" ||
    strContains code "varies"

/-- The guard of `test_stdin_input_request` (`src/tests.rs:651-653`). -/
def stdinGuard (code : String) : Bool :=
  strContains code "doesn't support" || strContains code "stdin varies"

/-- How one conformance check uses the snippet catalog: `codesOf` is every
snippet the check would execute or send for this language, `sends` is what it
actually sends to the kernel, and `early` is its result when it returns
before sending anything. -/
structure SnippetCheckUse where
  checkName : String
  codesOf : LanguageSnippets → List String
  sends : LanguageSnippets → List String
  early : LanguageSnippets → Option TestResult

/-- A check that unconditionally sends the listed snippets. -/
def plainUse (name : String) (codes : LanguageSnippets → List String) :
    SnippetCheckUse :=
  { checkName := name
    codesOf := codes
    sends := codes
    early := fun _ => none }

/-- Every check of `all_tests()` (`src/tests.rs:841-1024`) that executes or
sends a catalog snippet, with its guard where it has one. -/
def snippetChecks : List SnippetCheckUse :=
  [ plainUse "execute_stdout" (fun sn => [sn.print_hello]),
    plainUse "execute_stderr" (fun sn => [sn.print_stderr]),
    plainUse "execute_reply_ok" (fun sn => [sn.complete_code]),
    plainUse "status_busy_idle_lifecycle" (fun sn => [sn.complete_code]),
    plainUse "execute_input_broadcast" (fun sn => [sn.complete_code]),
    plainUse "complete_request"
      (fun sn => [sn.completion_setup, sn.completion_prefix]),
    plainUse "inspect_request"
      (fun sn => [sn.completion_setup, sn.completion_var]),
    plainUse "is_complete_complete" (fun sn => [sn.complete_code]),
    plainUse "is_complete_incomplete" (fun sn => [sn.incomplete_code]),
    plainUse "history_request" (fun sn => [sn.complete_code]),
    plainUse "error_handling" (fun sn => [sn.syntax_error]),
    plainUse "display_data" (fun sn => [sn.display_data_code]),
    { checkName := "update_display_data"
      codesOf := fun sn => [sn.update_display_data_code]
      sends := fun sn =>
        if updateDisplayGuard sn.update_display_data_code then []
        else [sn.update_display_data_code]
      early := fun sn =>
        if updateDisplayGuard sn.update_display_data_code then
          some TestResult.unsupported
        else none },
    plainUse "execute_result" (fun sn => [sn.simple_expr]),
    { checkName := "stdin_input_request"
      codesOf := fun sn => [sn.input_prompt]
      sends := fun sn =>
        if stdinGuard sn.input_prompt then [] else [sn.input_prompt]
      early := fun sn =>
        if stdinGuard sn.input_prompt then some TestResult.unsupported
        else none },
    plainUse "comms_lifecycle" (fun sn => [sn.complete_code]),
    plainUse "execution_count_increments" (fun sn => [sn.complete_code]),
    plainUse "parent_header_correlation" (fun sn => [sn.print_hello]) ]

/-- A check honours the sentinel convention on catalog `sn`: every snippet it
would use that contains a sentinel is not sent, and the check returns
Unsupported before sending anything. -/
def checkObeysSentinel (chk : SnippetCheckUse) (sn : LanguageSnippets) : Bool :=
  (chk.codesOf sn).all (fun c =>
    !(sentinelIn c) ||
      (!((chk.sends sn).contains c) &&
        decide (chk.early sn = some TestResult.unsupported)))

/-- All snippet-using checks honour the sentinel convention on catalog `sn`. -/
def snippetChecksObeySentinel (sn : LanguageSnippets) : Bool :=
  snippetChecks.all (fun chk => checkObeysSentinel chk sn)

/-- C1 witness message. -/
def idleReqMsg : JupyterMsg :=
  ⟨"m-idle", some "req-1", MsgContent.status ExecutionState.idle⟩

/-- C1 witness reply. -/
def okReplyMsg : JupyterMsg :=
  ⟨"m-reply", some "req-1", MsgContent.executeReply ReplyStatus.ok⟩

/-- C2 witness busy message. -/
def busyReqMsg : JupyterMsg :=
  ⟨"m-busy", some "req-1", MsgContent.status ExecutionState.busy⟩

/-- C2 witness stray message (different parent). -/
def strayMsg : JupyterMsg :=
  ⟨"m-stray", some "other-req", MsgContent.executeInput⟩

/-- C6 witness input_request header. -/
def stdinReqHdr : String := "input-req-7"

example :
    drainIopub 1000 "req"
      [(ReadEvent.msg ⟨"a", some "req", MsgContent.status ExecutionState.busy⟩, 10),
       (ReadEvent.msg ⟨"b", some "other", MsgContent.executeInput⟩, 10),
       (ReadEvent.tick, 100),
       (ReadEvent.msg ⟨"c", some "req", MsgContent.status ExecutionState.idle⟩, 10)]
      0 [] =
    .ok [⟨"a", some "req", MsgContent.status ExecutionState.busy⟩,
         ⟨"c", some "req", MsgContent.status ExecutionState.idle⟩] := rfl

example :
    drainIopub 50 "req"
      [(ReadEvent.tick, 100),
       (ReadEvent.msg ⟨"c", some "req", MsgContent.status ExecutionState.idle⟩, 10)]
      0 [] = .error (HarnessErr.timeout "iopub idle") := rfl

example :
    shutdown (.error "control channel down") ⟨true, true⟩ =
      (.ok (), ⟨false, false⟩, ["shutdown_request", "kill", "remove_file"]) := rfl

example : strContains "// Rust kernel doesn't support stdin" "doesn't support" = true := rfl

example : strContains "input('Enter: ')" "doesn't support" = false := rfl

example : forLanguage "Python3" = pythonSnippets := rfl

example : forLanguage "C++" = cppSnippets := rfl

example : forLanguage "fortran" = genericSnippets "fortran" := rfl

example : snippetChecksObeySentinel pythonSnippets = true := rfl

example : snippetChecksObeySentinel rustSnippets = true := rfl

example : snippetChecksObeySentinel cppSnippets = true := rfl

example : sentinelIn rustSnippets.input_prompt = true := rfl

example : stdinGuard cppSnippets.input_prompt = true := rfl

/-- C8: `shutdown` attempts all three steps — shutdown_request on control,
force-kill, connection-file removal — whatever the control round trip's
outcome and the initial world state, always returns `Ok(())`, and leaves the
connection file removed and the child process not alive. -/
theorem shutdown_attempts_all_steps (controlOutcome : Except String Unit)
    (s : ShutdownState) :
    shutdown controlOutcome s =
      (.ok (), ⟨false, false⟩, ["shutdown_request", "kill", "remove_file"]) := by
  obtain ⟨f, p⟩ := s
  cases f <;> cases p <;> rfl

/-- C3 counterexample: when `launch` fails, `run_conformance_suite` returns
the error itself (the `?` on `launch` propagates it), not a startup-error
report. -/
theorem run_conformance_suite_launch_error_counterexample :
    runConformanceSuite (.error (HarnessErr.launchFailed "spawn failed"))
        [TestCategory.tier1Basic] [] 0 0 =
      .error (HarnessErr.launchFailed "spawn failed") ∧
    runConformanceSuite (.error (HarnessErr.launchFailed "spawn failed"))
        [TestCategory.tier1Basic] [] 0 0 ≠
      .ok (KernelReport.newFailedAtStartup "python3" "python"
        "Kernel launch failed: spawn failed" 0 0) := by
  refine ⟨rfl, ?_⟩
  intro h
  exact Except.noConfusion h

/-- C3 (amended): if `launch` fails, `run_conformance_suite` propagates the
error to its caller and runs no check; `KernelReport::new_failed_at_startup`
builds a report whose single synthetic record is "kernel_startup" in
Tier1Basic with result Fail of kind ProtocolError and the error string as
reason, but the suite runner never invokes it. -/
theorem run_conformance_suite_launch_error_amended
    (e : HarnessErr) (tiers : List TestCategory)
    (tests : List ConformanceTestModel) (ts td : Nat)
    (kn lang err : String) (dur ts2 : Nat) :
    runConformanceSuite (.error e) tiers tests ts td = .error e ∧
    suiteTestsRun (.error e) tiers tests = [] ∧
    (KernelReport.newFailedAtStartup kn lang err dur ts2).results =
      [{ name := "kernel_startup"
         category := TestCategory.tier1Basic
         description := "Kernel starts and responds to kernel_info_request"
         messageType := "kernel_info_request"
         result := TestResult.fail err (some FailureKind.protocolError)
         duration := dur }] ∧
    (KernelReport.newFailedAtStartup kn lang err dur ts2).startupError =
      some err ∧
    (KernelReport.newFailedAtStartup kn lang err dur ts2).implementation =
      "unknown" ∧
    (KernelReport.newFailedAtStartup kn lang err dur ts2).protocolVersion =
      "unknown" :=
  ⟨rfl, rfl, rfl, rfl, rfl, rfl⟩

/-- C4 counterexample: in `test_execute_stdout` (one of the claim's cited
checks) a driver `Timeout` error produces `Fail` with `kind: None`, not
`Some(Timeout)` nor any other `Some` kind. -/
theorem check_failure_kind_counterexample :
    testExecuteStdout (.error (HarnessErr.timeout "iopub idle")) =
      TestResult.fail "Timeout waiting for iopub idle" none ∧
    testExecuteStdout (.error (HarnessErr.timeout "iopub idle")) ≠
      TestResult.fail "Timeout waiting for iopub idle"
        (some FailureKind.timeout) ∧
    testExecuteStdout (.error (HarnessErr.timeout "iopub idle")) ≠
      TestResult.fail "Timeout waiting for iopub idle"
        (some FailureKind.harnessError) := by
  refine ⟨rfl, ?_, ?_⟩ <;> decide

/-- C4 (amended): every cited check catches driver errors at its boundary and
returns `Fail` rather than propagating, but the kind classification is
per-check: `test_heartbeat_responds` maps every driver error to
`Some(Timeout)`; `test_execute_stdout` records `kind: None`;
`test_execute_reply_ok` maps every driver error (a Timeout included) to
`Some(HarnessError)`, a non-Ok reply status to `Some(KernelError)` and a
non-execute_reply message to `Some(UnexpectedMessageType)`. -/
theorem check_failure_kind_amended :
    (∀ e : HarnessErr,
      testHeartbeatResponds (.error e) =
        TestResult.fail (herrToString e) (some FailureKind.timeout)) ∧
    (∀ e : HarnessErr,
      testExecuteStdout (.error e) = TestResult.fail (herrToString e) none) ∧
    (∀ e : HarnessErr,
      testExecuteReplyOk (.error e) =
        TestResult.fail (herrToString e) (some FailureKind.harnessError)) ∧
    (∀ (reply : JupyterMsg) (l : List JupyterMsg) (st : ReplyStatus),
      reply.content = MsgContent.executeReply st → st ≠ ReplyStatus.ok →
      testExecuteReplyOk (.ok (reply, l)) =
        TestResult.fail ("execute_reply status: " ++ replyStatusRepr st)
          (some FailureKind.kernelError)) ∧
    (∀ (reply : JupyterMsg) (l : List JupyterMsg),
      (∀ st, reply.content ≠ MsgContent.executeReply st) →
      testExecuteReplyOk (.ok (reply, l)) =
        TestResult.fail
          ("Expected execute_reply, got " ++ msgTypeName reply.content)
          (some FailureKind.unexpectedMessageType)) := by
  refine ⟨fun e => rfl, fun e => rfl, fun e => rfl, ?_, ?_⟩
  · intro reply l st h hne
    simp only [testExecuteReplyOk, h]
    rw [if_neg hne]
    rfl
  · intro reply l h
    obtain ⟨mid, pid, c⟩ := reply
    cases c with
    | executeReply st => exact absurd rfl (h st)
    | status s => rfl
    | stream n txt => rfl
    | executeInput => rfl
    | displayData => rfl
    | updateDisplayData => rfl
    | executeResult => rfl
    | errorOutput => rfl
    | other tag => rfl

/-- C4 witness: the kernel-error arm of the amended mapping at a concrete
non-Ok execute_reply. -/
theorem check_failure_kind_amended_witness :
    testExecuteReplyOk
        (.ok (⟨"r1", some "q1", MsgContent.executeReply ReplyStatus.error⟩, [])) =
      TestResult.fail "execute_reply status: Error" (some FailureKind.kernelError) :=
  check_failure_kind_amended.2.2.2.1
    ⟨"r1", some "q1", MsgContent.executeReply ReplyStatus.error⟩ []
    ReplyStatus.error rfl (by decide)

/-- C5: for every language the catalog can produce, every snippet-using
conformance check whose snippet contains one of the sentinel substrings
"doesn't support", "not available", "varies" returns Unsupported without
sending that snippet to the kernel. -/
theorem sentinel_snippets_unsupported (lang : String) :
    snippetChecksObeySentinel (forLanguage lang) = true := by
  unfold forLanguage
  by_cases h1 : lowerStr lang = "python" ∨ lowerStr lang = "python3"
  · rw [if_pos h1]; rfl
  · rw [if_neg h1]
    by_cases h2 : lowerStr lang = "r"
    · rw [if_pos h2]; rfl
    · rw [if_neg h2]
      by_cases h3 : lowerStr lang = "rust"
      · rw [if_pos h3]; rfl
      · rw [if_neg h3]
        by_cases h4 : lowerStr lang = "julia"
        · rw [if_pos h4]; rfl
        · rw [if_neg h4]
          by_cases h5 : lowerStr lang = "typescript" ∨ lowerStr lang = "javascript"
          · rw [if_pos h5]; rfl
          · rw [if_neg h5]
            by_cases h6 : lowerStr lang = "go"
            · rw [if_pos h6]; rfl
            · rw [if_neg h6]
              by_cases h7 : lowerStr lang = "scala"
              · rw [if_pos h7]; rfl
              · rw [if_neg h7]
                by_cases h8 : lowerStr lang = "c++" ∨ lowerStr lang = "cpp"
                · rw [if_pos h8]; rfl
                · rw [if_neg h8]
                  by_cases h9 : lowerStr lang = "sql"
                  · rw [if_pos h9]; rfl
                  · rw [if_neg h9]
                    by_cases h10 : lowerStr lang = "lua"
                    · rw [if_pos h10]; rfl
                    · rw [if_neg h10]
                      by_cases h11 : lowerStr lang = "haskell"
                      · rw [if_pos h11]; rfl
                      · rw [if_neg h11]
                        by_cases h12 : lowerStr lang = "octave"
                        · rw [if_pos h12]; rfl
                        · rw [if_neg h12]
                          by_cases h13 : lowerStr lang = "ocaml"
                          · rw [if_pos h13]; rfl
                          · rw [if_neg h13]
                            rfl

lemma drainIopub_ok_parent (t : Nat) (msgId : String) :
    ∀ (events : List (ReadEvent × Nat)) (elapsed : Nat)
      (acc msgs : List JupyterMsg),
      (∀ m ∈ acc, m.parentMsgId = some msgId) →
      drainIopub t msgId events elapsed acc = .ok msgs →
      ∀ m ∈ msgs, m.parentMsgId = some msgId := by
  intro events
  induction events with
  | nil =>
    intro elapsed acc msgs hacc h
    exact Except.noConfusion h
  | cons p rest ih =>
    obtain ⟨ev, d⟩ := p
    cases ev with
    | msg m =>
      intro elapsed acc msgs hacc h
      simp only [drainIopub] at h
      split at h
      · exact Except.noConfusion h
      · split at h
        · rename_i hpar
          split at h
          · cases h
            intro x hx
            rcases List.mem_append.1 hx with h1 | h2
            · exact hacc x h1
            · rw [List.mem_singleton.1 h2]
              exact hpar
          · refine ih _ _ _ ?_ h
            intro x hx
            rcases List.mem_append.1 hx with h1 | h2
            · exact hacc x h1
            · rw [List.mem_singleton.1 h2]
              exact hpar
        · exact ih _ _ _ hacc h
    | readErr e =>
      intro elapsed acc msgs hacc h
      simp only [drainIopub] at h
      split at h
      · exact Except.noConfusion h
      · exact Except.noConfusion h
    | tick =>
      intro elapsed acc msgs hacc h
      simp only [drainIopub] at h
      split at h
      · exact Except.noConfusion h
      · exact ih _ _ _ hacc h

/-- C1: whenever `execute_and_collect` returns successfully, every message in
the returned IOPub collection carries a parent header whose msg_id is the
request's msg_id; a stray message with an absent or different parent id is
never an element of the collection. -/
theorem execute_and_collect_correlates_parent
    (t : Nat) (msgId : String) (sendErr : Option String)
    (events : List (ReadEvent × Nat))
    (shellRead : Except HarnessErr JupyterMsg)
    (reply : JupyterMsg) (msgs : List JupyterMsg)
    (h : executeAndCollect t msgId sendErr events shellRead = .ok (reply, msgs)) :
    ∀ m ∈ msgs, m.parentMsgId = some msgId := by
  unfold executeAndCollect at h
  cases sendErr with
  | some e => exact Except.noConfusion h
  | none =>
    cases hd : drainIopub t msgId events 0 [] with
    | error e =>
      rw [hd] at h
      exact Except.noConfusion h
    | ok msgs2 =>
      rw [hd] at h
      cases shellRead with
      | error e => exact Except.noConfusion h
      | ok reply2 =>
        cases h
        exact drainIopub_ok_parent t msgId events 0 [] msgs (by simp) hd

/-- C1 witness: the theorem applied to a concrete one-message run. -/
theorem execute_and_collect_correlates_parent_witness :
    idleReqMsg.parentMsgId = some "req-1" :=
  execute_and_collect_correlates_parent 1000 "req-1" none
    [(ReadEvent.msg idleReqMsg, 10)] (.ok okReplyMsg) okReplyMsg [idleReqMsg]
    rfl idleReqMsg (List.mem_singleton.2 rfl)

lemma matchingMsgs_cons_msg (msgId : String) (m : JupyterMsg)
    (d : Nat) (rest : List (ReadEvent × Nat)) :
    matchingMsgs msgId ((ReadEvent.msg m, d) :: rest) =
      (if m.parentMsgId = some msgId then [m] else []) ++
        matchingMsgs msgId rest := by
  by_cases hpar : m.parentMsgId = some msgId <;>
    simp [matchingMsgs, eventMsgs, hpar]

lemma matchingMsgs_cons_other (msgId : String) (ev : ReadEvent)
    (d : Nat) (rest : List (ReadEvent × Nat))
    (hev : ∀ m, ev ≠ ReadEvent.msg m) :
    matchingMsgs msgId ((ev, d) :: rest) = matchingMsgs msgId rest := by
  cases ev with
  | msg m => exact absurd rfl (hev m)
  | readErr e => simp [matchingMsgs, eventMsgs]
  | tick => simp [matchingMsgs, eventMsgs]

lemma durSum_cons (ev : ReadEvent) (d : Nat) (rest : List (ReadEvent × Nat)) :
    durSum ((ev, d) :: rest) = d + durSum rest := by
  simp [durSum]

lemma drainIopub_collects (t : Nat) (msgId : String) :
    ∀ (events : List (ReadEvent × Nat)) (elapsed : Nat)
      (acc ms : List JupyterMsg) (mIdle : JupyterMsg),
      matchingMsgs msgId events = ms ++ [mIdle] →
      isIdleMsg mIdle = true →
      (∀ m ∈ ms, isIdleMsg m = false) →
      noReadErr events = true →
      elapsed + durSum events ≤ t →
      drainIopub t msgId events elapsed acc = .ok ((acc ++ ms) ++ [mIdle]) := by
  intro events
  induction events with
  | nil =>
    intro elapsed acc ms mIdle hm _ _ _ _
    simp [matchingMsgs, eventMsgs] at hm
  | cons p rest ih =>
    obtain ⟨ev, d⟩ := p
    intro elapsed acc ms mIdle hm hIdle hms hre hdur
    have hnotime : ¬ t < elapsed := by
      rw [durSum_cons] at hdur
      omega
    cases ev with
    | msg m =>
      simp only [drainIopub, if_neg hnotime]
      by_cases hpar : m.parentMsgId = some msgId
      · rw [if_pos hpar]
        rw [matchingMsgs_cons_msg, if_pos hpar] at hm
        cases ms with
        | nil =>
          simp only [List.nil_append, List.singleton_append,
            List.cons.injEq] at hm
          obtain ⟨h1, h2⟩ := hm
          subst h1
          rw [if_pos hIdle]
          simp
        | cons m0 ms2 =>
          simp only [List.cons_append, List.singleton_append,
            List.cons.injEq] at hm
          obtain ⟨h1, h2⟩ := hm
          subst h1
          have hnotIdle : isIdleMsg m = false := hms m (by simp)
          rw [if_neg (by simp [hnotIdle])]
          have hrec := ih (elapsed + d) (acc ++ [m]) ms2 mIdle h2 hIdle
            (fun x hx => hms x (by simp [hx]))
            (by simpa [noReadErr] using hre)
            (by rw [durSum_cons] at hdur; omega)
          simpa [List.append_assoc] using hrec
      · rw [if_neg hpar]
        rw [matchingMsgs_cons_msg, if_neg hpar, List.nil_append] at hm
        exact ih (elapsed + d) acc ms mIdle hm hIdle hms
          (by simpa [noReadErr] using hre)
          (by rw [durSum_cons] at hdur; omega)
    | readErr e =>
      exact absurd hre (by simp [noReadErr])
    | tick =>
      simp only [drainIopub, if_neg hnotime]
      rw [matchingMsgs_cons_other msgId ReadEvent.tick d rest
        (fun m h => ReadEvent.noConfusion h)] at hm
      exact ih (elapsed + d) acc ms mIdle hm hIdle hms
        (by simpa [noReadErr] using hre)
        (by rw [durSum_cons] at hdur; omega)

/-- C2: if the kernel emits, with matching parent header, a sequence of
messages whose last element is the first matching Status(Idle) — possibly
interleaved with non-matching messages and empty reads, with no read failures
and within the per-check deadline — then `execute_and_collect` ends its drain
at that Idle message, returns exactly the matching messages in emission order
with the Idle last, and then returns the execute_reply read from shell. -/
theorem execute_and_collect_idle_terminates_drain
    (t : Nat) (msgId : String) (events : List (ReadEvent × Nat))
    (ms : List JupyterMsg) (mIdle reply : JupyterMsg)
    (hm : matchingMsgs msgId events = ms ++ [mIdle])
    (hIdle : isIdleMsg mIdle = true)
    (hms : ∀ m ∈ ms, isIdleMsg m = false)
    (hre : noReadErr events = true)
    (hdur : durSum events ≤ t) :
    executeAndCollect t msgId none events (.ok reply) =
      .ok (reply, ms ++ [mIdle]) := by
  unfold executeAndCollect
  rw [drainIopub_collects t msgId events 0 [] ms mIdle hm hIdle hms hre
    (by simpa using hdur)]
  simp

/-- C2 witness: a concrete three-event run with one interleaved stray
message collects exactly the two matching messages, Idle last. -/
theorem execute_and_collect_idle_terminates_drain_witness :
    executeAndCollect 1000 "req-1" none
        [(ReadEvent.msg busyReqMsg, 10), (ReadEvent.msg strayMsg, 5),
         (ReadEvent.tick, 100), (ReadEvent.msg idleReqMsg, 10)]
        (.ok okReplyMsg) =
      .ok (okReplyMsg, [busyReqMsg] ++ [idleReqMsg]) :=
  execute_and_collect_idle_terminates_drain 1000 "req-1"
    [(ReadEvent.msg busyReqMsg, 10), (ReadEvent.msg strayMsg, 5),
     (ReadEvent.tick, 100), (ReadEvent.msg idleReqMsg, 10)]
    [busyReqMsg] idleReqMsg okReplyMsg rfl rfl
    (by intro m hm; rw [List.mem_singleton.1 hm]; rfl)
    rfl (by decide)

lemma drainIopub_no_idle_timeout (t : Nat) (msgId : String) :
    ∀ (events : List (ReadEvent × Nat)) (elapsed : Nat)
      (acc : List JupyterMsg),
      noMatchingIdle msgId events = true →
      noReadErr events = true →
      drainIopub t msgId events elapsed acc =
        .error (HarnessErr.timeout "iopub idle") := by
  intro events
  induction events with
  | nil =>
    intro elapsed acc _ _
    rfl
  | cons p rest ih =>
    obtain ⟨ev, d⟩ := p
    intro elapsed acc hni hre
    cases ev with
    | msg m =>
      have hni' := hni
      simp only [noMatchingIdle, List.all_cons, Bool.and_eq_true] at hni'
      obtain ⟨hhead, htail⟩ := hni'
      have hni2 : noMatchingIdle msgId rest = true := htail
      simp only [drainIopub]
      split
      · rfl
      · by_cases hpar : m.parentMsgId = some msgId
        · rw [if_pos hpar]
          have hIdleFalse : isIdleMsg m = false := by
            simp only [hpar, decide_True, Bool.true_and,
              Bool.not_eq_true'] at hhead
            exact hhead
          rw [if_neg (by simp [hIdleFalse])]
          exact ih (elapsed + d) (acc ++ [m]) hni2
            (by simpa [noReadErr] using hre)
        · rw [if_neg hpar]
          exact ih (elapsed + d) acc hni2
            (by simpa [noReadErr] using hre)
    | readErr e =>
      exact absurd hre (by simp [noReadErr])
    | tick =>
      simp only [drainIopub]
      split
      · rfl
      · exact ih (elapsed + d) acc
          (by simpa [noMatchingIdle] using hni)
          (by simpa [noReadErr] using hre)

/-- C7: if no Status(Idle) with matching parent header ever arrives (and no
read fails outright), the drain loop of `execute_and_collect` terminates once
the per-check deadline is exhausted and the call returns
`Timeout("iopub idle")`, for any shell-read outcome. -/
theorem execute_and_collect_deadline_timeout
    (t : Nat) (msgId : String) (events : List (ReadEvent × Nat))
    (shellRead : Except HarnessErr JupyterMsg)
    (hni : noMatchingIdle msgId events = true)
    (hre : noReadErr events = true) :
    executeAndCollect t msgId none events shellRead =
      .error (HarnessErr.timeout "iopub idle") := by
  unfold executeAndCollect
  rw [drainIopub_no_idle_timeout t msgId events 0 [] hni hre]

/-- C7 witness: a concrete run with busy status, a stray idle for another
request and empty reads, but no matching idle, times out. -/
theorem execute_and_collect_deadline_timeout_witness :
    executeAndCollect 250 "req-1" none
        [(ReadEvent.msg busyReqMsg, 10),
         (ReadEvent.msg ⟨"m-other-idle", some "other-req",
            MsgContent.status ExecutionState.idle⟩, 10),
         (ReadEvent.tick, 100), (ReadEvent.tick, 100), (ReadEvent.tick, 100)]
        (.ok okReplyMsg) =
      .error (HarnessErr.timeout "iopub idle") :=
  execute_and_collect_deadline_timeout 250 "req-1"
    [(ReadEvent.msg busyReqMsg, 10),
     (ReadEvent.msg ⟨"m-other-idle", some "other-req",
        MsgContent.status ExecutionState.idle⟩, 10),
     (ReadEvent.tick, 100), (ReadEvent.tick, 100), (ReadEvent.tick, 100)]
    (.ok okReplyMsg) (by decide) (by decide)

lemma drainIopub_ok_last_idle (t : Nat) (msgId : String) :
    ∀ (events : List (ReadEvent × Nat)) (elapsed : Nat)
      (acc msgs : List JupyterMsg),
      drainIopub t msgId events elapsed acc = .ok msgs →
      ∃ pre m, msgs = pre ++ [m] ∧ isIdleMsg m = true ∧
        m.parentMsgId = some msgId := by
  intro events
  induction events with
  | nil =>
    intro elapsed acc msgs h
    exact Except.noConfusion h
  | cons p rest ih =>
    obtain ⟨ev, d⟩ := p
    intro elapsed acc msgs h
    cases ev with
    | msg m =>
      simp only [drainIopub] at h
      split at h
      · exact Except.noConfusion h
      · split at h
        · rename_i hpar
          split at h
          · rename_i hidle
            cases h
            exact ⟨acc, m, rfl, hidle, hpar⟩
          · exact ih _ _ _ h
        · exact ih _ _ _ h
    | readErr e =>
      simp only [drainIopub] at h
      split at h
      · exact Except.noConfusion h
      · exact Except.noConfusion h
    | tick =>
      simp only [drainIopub] at h
      split at h
      · exact Except.noConfusion h
      · exact ih _ _ _ h

lemma drainStdin_ok_last_idle (t : Nat) (msgId mock : String) :
    ∀ (events : List (StdinEvent × ReadEvent × Nat)) (elapsed : Nat)
      (acc : List JupyterMsg) (saw : Bool) (sent : List SentReply)
      (msgs : List JupyterMsg) (b : Bool) (s : List SentReply),
      drainStdin t msgId mock events elapsed acc saw sent = .ok (msgs, b, s) →
      ∃ pre m, msgs = pre ++ [m] ∧ isIdleMsg m = true ∧
        m.parentMsgId = some msgId := by
  intro events
  induction events with
  | nil =>
    intro elapsed acc saw sent msgs b s h
    exact Except.noConfusion h
  | cons p rest ih =>
    obtain ⟨se, ie, d⟩ := p
    intro elapsed acc saw sent msgs b s h
    cases se with
    | inputReq hdr sendErr =>
      cases sendErr with
      | some e =>
        simp only [drainStdin] at h
        split at h
        · exact Except.noConfusion h
        · exact Except.noConfusion h
      | none =>
        cases ie with
        | msg m =>
          simp only [drainStdin] at h
          split at h
          · exact Except.noConfusion h
          · split at h
            · rename_i hpar
              split at h
              · rename_i hidle
                cases h
                exact ⟨acc, m, rfl, hidle, hpar⟩
              · exact ih _ _ _ _ _ _ _ h
            · exact ih _ _ _ _ _ _ _ h
        | readErr e =>
          simp only [drainStdin] at h
          split at h
          · exact Except.noConfusion h
          · exact Except.noConfusion h
        | tick =>
          simp only [drainStdin] at h
          split at h
          · exact Except.noConfusion h
          · exact ih _ _ _ _ _ _ _ h
    | otherMsg =>
      cases ie with
      | msg m =>
        simp only [drainStdin] at h
        split at h
        · exact Except.noConfusion h
        · split at h
          · rename_i hpar
            split at h
            · rename_i hidle
              cases h
              exact ⟨acc, m, rfl, hidle, hpar⟩
            · exact ih _ _ _ _ _ _ _ h
          · exact ih _ _ _ _ _ _ _ h
      | readErr e =>
        simp only [drainStdin] at h
        split at h
        · exact Except.noConfusion h
        · exact Except.noConfusion h
      | tick =>
        simp only [drainStdin] at h
        split at h
        · exact Except.noConfusion h
        · exact ih _ _ _ _ _ _ _ h
    | readErr e2 =>
      cases ie with
      | msg m =>
        simp only [drainStdin] at h
        split at h
        · exact Except.noConfusion h
        · split at h
          · rename_i hpar
            split at h
            · rename_i hidle
              cases h
              exact ⟨acc, m, rfl, hidle, hpar⟩
            · exact ih _ _ _ _ _ _ _ h
          · exact ih _ _ _ _ _ _ _ h
      | readErr e =>
        simp only [drainStdin] at h
        split at h
        · exact Except.noConfusion h
        · exact Except.noConfusion h
      | tick =>
        simp only [drainStdin] at h
        split at h
        · exact Except.noConfusion h
        · exact ih _ _ _ _ _ _ _ h
    | tick =>
      cases ie with
      | msg m =>
        simp only [drainStdin] at h
        split at h
        · exact Except.noConfusion h
        · split at h
          · rename_i hpar
            split at h
            · rename_i hidle
              cases h
              exact ⟨acc, m, rfl, hidle, hpar⟩
            · exact ih _ _ _ _ _ _ _ h
          · exact ih _ _ _ _ _ _ _ h
      | readErr e =>
        simp only [drainStdin] at h
        split at h
        · exact Except.noConfusion h
        · exact Except.noConfusion h
      | tick =>
        simp only [drainStdin] at h
        split at h
        · exact Except.noConfusion h
        · exact ih _ _ _ _ _ _ _ h

/-- C10: whenever `execute_and_collect`, `shell_request_with_iopub` or
`execute_with_stdin` returns successfully, the returned IOPub collection is
non-empty and its last element is a Status(Idle) message whose parent header
matches the request: the terminating Idle marker is returned, and nothing is
collected after it. -/
theorem collected_iopub_ends_with_matching_idle :
    (∀ (t : Nat) (msgId : String) (sendErr : Option String)
        (events : List (ReadEvent × Nat))
        (shellRead : Except HarnessErr JupyterMsg)
        (reply : JupyterMsg) (msgs : List JupyterMsg),
      executeAndCollect t msgId sendErr events shellRead = .ok (reply, msgs) →
      ∃ pre m, msgs = pre ++ [m] ∧ isIdleMsg m = true ∧
        m.parentMsgId = some msgId) ∧
    (∀ (t : Nat) (msgId : String) (sendErr : Option String)
        (events : List (ReadEvent × Nat))
        (shellRead : Except HarnessErr JupyterMsg)
        (reply : JupyterMsg) (msgs : List JupyterMsg),
      shellRequestWithIopub t msgId sendErr events shellRead =
        .ok (reply, msgs) →
      ∃ pre m, msgs = pre ++ [m] ∧ isIdleMsg m = true ∧
        m.parentMsgId = some msgId) ∧
    (∀ (t : Nat) (msgId mock : String) (sendErr : Option String)
        (events : List (StdinEvent × ReadEvent × Nat))
        (shellRead : Except HarnessErr JupyterMsg)
        (reply : JupyterMsg) (msgs : List JupyterMsg) (saw : Bool)
        (sent : List SentReply),
      executeWithStdin t msgId mock sendErr events shellRead =
        .ok ((reply, msgs, saw), sent) →
      ∃ pre m, msgs = pre ++ [m] ∧ isIdleMsg m = true ∧
        m.parentMsgId = some msgId) := by
  refine ⟨?_, ?_, ?_⟩
  · intro t msgId sendErr events shellRead reply msgs h
    unfold executeAndCollect at h
    cases sendErr with
    | some e => exact Except.noConfusion h
    | none =>
      cases hd : drainIopub t msgId events 0 [] with
      | error e =>
        rw [hd] at h
        exact Except.noConfusion h
      | ok msgs2 =>
        rw [hd] at h
        cases shellRead with
        | error e => exact Except.noConfusion h
        | ok reply2 =>
          cases h
          exact drainIopub_ok_last_idle t msgId events 0 [] msgs hd
  · intro t msgId sendErr events shellRead reply msgs h
    unfold shellRequestWithIopub at h
    cases sendErr with
    | some e => exact Except.noConfusion h
    | none =>
      cases hd : drainIopub t msgId events 0 [] with
      | error e =>
        rw [hd] at h
        exact Except.noConfusion h
      | ok msgs2 =>
        rw [hd] at h
        cases shellRead with
        | error e => exact Except.noConfusion h
        | ok reply2 =>
          cases h
          exact drainIopub_ok_last_idle t msgId events 0 [] msgs hd
  · intro t msgId mock sendErr events shellRead reply msgs saw sent h
    unfold executeWithStdin at h
    cases sendErr with
    | some e => exact Except.noConfusion h
    | none =>
      cases hd : drainStdin t msgId mock events 0 [] false [] with
      | error e =>
        rw [hd] at h
        exact Except.noConfusion h
      | ok out =>
        obtain ⟨msgs2, saw2, sent2⟩ := out
        rw [hd] at h
        cases shellRead with
        | error e => exact Except.noConfusion h
        | ok reply2 =>
          cases h
          exact drainStdin_ok_last_idle t msgId mock events 0 [] false []
            msgs saw sent hd

/-- C10 witness: a concrete successful `execute_and_collect` run whose
collection ends in the matching Idle status. -/
theorem collected_iopub_ends_with_matching_idle_witness :
    ∃ pre m, [busyReqMsg, idleReqMsg] = pre ++ [m] ∧ isIdleMsg m = true ∧
      m.parentMsgId = some "req-1" :=
  collected_iopub_ends_with_matching_idle.1 1000 "req-1" none
    [(ReadEvent.msg busyReqMsg, 10), (ReadEvent.msg idleReqMsg, 10)]
    (.ok okReplyMsg) okReplyMsg [busyReqMsg, idleReqMsg] rfl

lemma drainStdin_sent (t : Nat) (msgId mock : String) :
    ∀ (events : List (StdinEvent × ReadEvent × Nat)) (elapsed : Nat)
      (acc : List JupyterMsg) (saw : Bool) (sent : List SentReply)
      (msgs : List JupyterMsg) (b : Bool) (s : List SentReply),
      drainStdin t msgId mock events elapsed acc saw sent = .ok (msgs, b, s) →
      s = sent ++ (stdinReqsBeforeIdle msgId events).map
          (fun hdr => (⟨hdr, mock, ReplyStatus.ok⟩ : SentReply)) ∧
      b = (saw || !(stdinReqsBeforeIdle msgId events).isEmpty) := by
  intro events
  induction events with
  | nil =>
    intro elapsed acc saw sent msgs b s h
    exact Except.noConfusion h
  | cons p rest ih =>
    obtain ⟨se, ie, d⟩ := p
    intro elapsed acc saw sent msgs b s h
    cases se with
    | inputReq hdr sendErr =>
      cases sendErr with
      | some e =>
        simp only [drainStdin] at h
        split at h
        · exact Except.noConfusion h
        · exact Except.noConfusion h
      | none =>
        cases ie with
        | msg m =>
          simp only [drainStdin] at h
          split at h
          · exact Except.noConfusion h
          · split at h
            · rename_i hpar
              split at h
              · rename_i hidle
                cases h
                constructor
                · simp [stdinReqsBeforeIdle, isMatchingIdle, hpar, hidle]
                · simp [stdinReqsBeforeIdle, isMatchingIdle, hpar, hidle]
              · rename_i hidle
                obtain ⟨hs, hb⟩ := ih _ _ _ _ _ _ _ h
                have hIdleF : isIdleMsg m = false := by
                  simpa using hidle
                constructor
                · simp [stdinReqsBeforeIdle, isMatchingIdle, hpar, hIdleF, hs]
                · simp [stdinReqsBeforeIdle, isMatchingIdle, hpar, hIdleF, hb]
            · rename_i hpar
              obtain ⟨hs, hb⟩ := ih _ _ _ _ _ _ _ h
              constructor
              · simp [stdinReqsBeforeIdle, isMatchingIdle, hpar, hs]
              · simp [stdinReqsBeforeIdle, isMatchingIdle, hpar, hb]
        | readErr e =>
          simp only [drainStdin] at h
          split at h
          · exact Except.noConfusion h
          · exact Except.noConfusion h
        | tick =>
          simp only [drainStdin] at h
          split at h
          · exact Except.noConfusion h
          · obtain ⟨hs, hb⟩ := ih _ _ _ _ _ _ _ h
            constructor
            · simp [stdinReqsBeforeIdle, isMatchingIdle, hs]
            · simp [stdinReqsBeforeIdle, isMatchingIdle, hb]
    | otherMsg =>
      cases ie with
      | msg m =>
        simp only [drainStdin] at h
        split at h
        · exact Except.noConfusion h
        · split at h
          · rename_i hpar
            split at h
            · rename_i hidle
              cases h
              constructor
              · simp [stdinReqsBeforeIdle, isMatchingIdle, hpar, hidle]
              · simp [stdinReqsBeforeIdle, isMatchingIdle, hpar, hidle]
            · rename_i hidle
              obtain ⟨hs, hb⟩ := ih _ _ _ _ _ _ _ h
              have hIdleF : isIdleMsg m = false := by
                simpa using hidle
              constructor
              · simp [stdinReqsBeforeIdle, isMatchingIdle, hpar, hIdleF, hs]
              · simp [stdinReqsBeforeIdle, isMatchingIdle, hpar, hIdleF, hb]
          · rename_i hpar
            obtain ⟨hs, hb⟩ := ih _ _ _ _ _ _ _ h
            constructor
            · simp [stdinReqsBeforeIdle, isMatchingIdle, hpar, hs]
            · simp [stdinReqsBeforeIdle, isMatchingIdle, hpar, hb]
      | readErr e =>
        simp only [drainStdin] at h
        split at h
        · exact Except.noConfusion h
        · exact Except.noConfusion h
      | tick =>
        simp only [drainStdin] at h
        split at h
        · exact Except.noConfusion h
        · obtain ⟨hs, hb⟩ := ih _ _ _ _ _ _ _ h
          constructor
          · simp [stdinReqsBeforeIdle, isMatchingIdle, hs]
          · simp [stdinReqsBeforeIdle, isMatchingIdle, hb]
    | readErr e2 =>
      cases ie with
      | msg m =>
        simp only [drainStdin] at h
        split at h
        · exact Except.noConfusion h
        · split at h
          · rename_i hpar
            split at h
            · rename_i hidle
              cases h
              constructor
              · simp [stdinReqsBeforeIdle, isMatchingIdle, hpar, hidle]
              · simp [stdinReqsBeforeIdle, isMatchingIdle, hpar, hidle]
            · rename_i hidle
              obtain ⟨hs, hb⟩ := ih _ _ _ _ _ _ _ h
              have hIdleF : isIdleMsg m = false := by
                simpa using hidle
              constructor
              · simp [stdinReqsBeforeIdle, isMatchingIdle, hpar, hIdleF, hs]
              · simp [stdinReqsBeforeIdle, isMatchingIdle, hpar, hIdleF, hb]
          · rename_i hpar
            obtain ⟨hs, hb⟩ := ih _ _ _ _ _ _ _ h
            constructor
            · simp [stdinReqsBeforeIdle, isMatchingIdle, hpar, hs]
            · simp [stdinReqsBeforeIdle, isMatchingIdle, hpar, hb]
      | readErr e =>
        simp only [drainStdin] at h
        split at h
        · exact Except.noConfusion h
        · exact Except.noConfusion h
      | tick =>
        simp only [drainStdin] at h
        split at h
        · exact Except.noConfusion h
        · obtain ⟨hs, hb⟩ := ih _ _ _ _ _ _ _ h
          constructor
          · simp [stdinReqsBeforeIdle, isMatchingIdle, hs]
          · simp [stdinReqsBeforeIdle, isMatchingIdle, hb]
    | tick =>
      cases ie with
      | msg m =>
        simp only [drainStdin] at h
        split at h
        · exact Except.noConfusion h
        · split at h
          · rename_i hpar
            split at h
            · rename_i hidle
              cases h
              constructor
              · simp [stdinReqsBeforeIdle, isMatchingIdle, hpar, hidle]
              · simp [stdinReqsBeforeIdle, isMatchingIdle, hpar, hidle]
            · rename_i hidle
              obtain ⟨hs, hb⟩ := ih _ _ _ _ _ _ _ h
              have hIdleF : isIdleMsg m = false := by
                simpa using hidle
              constructor
              · simp [stdinReqsBeforeIdle, isMatchingIdle, hpar, hIdleF, hs]
              · simp [stdinReqsBeforeIdle, isMatchingIdle, hpar, hIdleF, hb]
          · rename_i hpar
            obtain ⟨hs, hb⟩ := ih _ _ _ _ _ _ _ h
            constructor
            · simp [stdinReqsBeforeIdle, isMatchingIdle, hpar, hs]
            · simp [stdinReqsBeforeIdle, isMatchingIdle, hpar, hb]
      | readErr e =>
        simp only [drainStdin] at h
        split at h
        · exact Except.noConfusion h
        · exact Except.noConfusion h
      | tick =>
        simp only [drainStdin] at h
        split at h
        · exact Except.noConfusion h
        · obtain ⟨hs, hb⟩ := ih _ _ _ _ _ _ _ h
          constructor
          · simp [stdinReqsBeforeIdle, isMatchingIdle, hs]
          · simp [stdinReqsBeforeIdle, isMatchingIdle, hb]

/-- C6: on every successful `execute_with_stdin` call, the input_replies sent
on stdin are exactly one per input_request handled before the matching Idle —
each with that request's header as parent, the mock response as value and
status Ok — `saw_input_request` is true exactly when there was at least one
such input_request, and the execute_reply read from shell is returned. -/
theorem execute_with_stdin_replies_spec
    (t : Nat) (msgId mock : String) (sendErr : Option String)
    (events : List (StdinEvent × ReadEvent × Nat))
    (shellRead : Except HarnessErr JupyterMsg)
    (reply : JupyterMsg) (msgs : List JupyterMsg) (saw : Bool)
    (sent : List SentReply)
    (h : executeWithStdin t msgId mock sendErr events shellRead =
      .ok ((reply, msgs, saw), sent)) :
    sent = (stdinReqsBeforeIdle msgId events).map
        (fun hdr => (⟨hdr, mock, ReplyStatus.ok⟩ : SentReply)) ∧
    saw = !(stdinReqsBeforeIdle msgId events).isEmpty ∧
    shellRead = .ok reply := by
  unfold executeWithStdin at h
  cases sendErr with
  | some e => exact Except.noConfusion h
  | none =>
    cases hd : drainStdin t msgId mock events 0 [] false [] with
    | error e =>
      rw [hd] at h
      exact Except.noConfusion h
    | ok out =>
      obtain ⟨msgs2, saw2, sent2⟩ := out
      rw [hd] at h
      cases shellRead with
      | error e => exact Except.noConfusion h
      | ok reply2 =>
        cases h
        obtain ⟨hs, hb⟩ := drainStdin_sent t msgId mock events 0 [] false []
          msgs saw sent hd
        refine ⟨by simpa using hs, by simpa using hb, rfl⟩

/-- C6 witness: a run with one input_request before Idle sends exactly one
Ok input_reply carrying the mock response, and reports
`saw_input_request = true`. -/
theorem execute_with_stdin_replies_spec_witness :
    [(⟨stdinReqHdr, "mock-answer", ReplyStatus.ok⟩ : SentReply)] =
      (stdinReqsBeforeIdle "req-1"
        [(StdinEvent.inputReq stdinReqHdr none, ReadEvent.tick, 10),
         (StdinEvent.tick, ReadEvent.msg idleReqMsg, 10)]).map
        (fun hdr => (⟨hdr, "mock-answer", ReplyStatus.ok⟩ : SentReply)) ∧
    true = !(stdinReqsBeforeIdle "req-1"
        [(StdinEvent.inputReq stdinReqHdr none, ReadEvent.tick, 10),
         (StdinEvent.tick, ReadEvent.msg idleReqMsg, 10)]).isEmpty ∧
    (Except.ok okReplyMsg : Except HarnessErr JupyterMsg) = .ok okReplyMsg :=
  execute_with_stdin_replies_spec 1000 "req-1" "mock-answer" none
    [(StdinEvent.inputReq stdinReqHdr none, ReadEvent.tick, 10),
     (StdinEvent.tick, ReadEvent.msg idleReqMsg, 10)]
    (.ok okReplyMsg) okReplyMsg [idleReqMsg] true
    [⟨stdinReqHdr, "mock-answer", ReplyStatus.ok⟩] rfl

lemma firstIdx_isSome_any {α : Type} (p : α → Bool) :
    ∀ l : List α, (firstIdx p l).isSome = l.any p := by
  intro l
  induction l with
  | nil => rfl
  | cons a l ih =>
    by_cases h : p a = true
    · simp [firstIdx, h]
    · cases hfl : firstIdx p l with
      | none =>
        rw [hfl] at ih
        simp [firstIdx, h, hfl, ← ih]
      | some k =>
        rw [hfl] at ih
        simp [firstIdx, h, hfl, ← ih]

lemma any_statusesOf (s₀ : ExecutionState) :
    ∀ l : List JupyterMsg,
      (statusesOf l).any (fun s => decide (s = s₀)) =
        l.any (fun m => decide (statusOf m = some s₀)) := by
  intro l
  induction l with
  | nil => rfl
  | cons m l ih =>
    cases hm : statusOf m with
    | none => simp [statusesOf, List.filterMap_cons, hm, ← ih]
    | some s => simp [statusesOf, List.filterMap_cons, hm, ← ih]

lemma firstIdx_statuses_lt :
    ∀ (l : List JupyterMsg) (s₀ s₁ : ExecutionState) (bi ii i j : Nat),
      firstIdx (fun s => decide (s = s₀)) (statusesOf l) = some bi →
      firstIdx (fun s => decide (s = s₁)) (statusesOf l) = some ii →
      firstIdx (fun m => decide (statusOf m = some s₀)) l = some i →
      firstIdx (fun m => decide (statusOf m = some s₁)) l = some j →
      (bi < ii ↔ i < j) := by
  intro l
  induction l with
  | nil =>
    intro s₀ s₁ bi ii i j h0 _ _ _
    exact Option.noConfusion h0
  | cons m l ih =>
    intro s₀ s₁ bi ii i j h0 h1 h2 h3
    cases hm : statusOf m with
    | some s =>
      have hst : statusesOf (m :: l) = s :: statusesOf l := by
        simp [statusesOf, List.filterMap_cons, hm]
      rw [hst] at h0 h1
      rw [show (firstIdx (fun x => decide (statusOf x = some s₀)) (m :: l)) =
          (if decide (statusOf m = some s₀) = true then some 0
           else (firstIdx (fun x => decide (statusOf x = some s₀)) l).map
             (· + 1)) from rfl] at h2
      rw [show (firstIdx (fun x => decide (statusOf x = some s₁)) (m :: l)) =
          (if decide (statusOf m = some s₁) = true then some 0
           else (firstIdx (fun x => decide (statusOf x = some s₁)) l).map
             (· + 1)) from rfl] at h3
      rw [show (firstIdx (fun x => decide (x = s₀)) (s :: statusesOf l)) =
          (if decide (s = s₀) = true then some 0
           else (firstIdx (fun x => decide (x = s₀)) (statusesOf l)).map
             (· + 1)) from rfl] at h0
      rw [show (firstIdx (fun x => decide (x = s₁)) (s :: statusesOf l)) =
          (if decide (s = s₁) = true then some 0
           else (firstIdx (fun x => decide (x = s₁)) (statusesOf l)).map
             (· + 1)) from rfl] at h1
      by_cases e0 : s = s₀ <;> by_cases e1 : s = s₁
      · -- head matches both targets: all first indices are 0
        rw [if_pos (by simp [e0])] at h0
        rw [if_pos (by simp [e1])] at h1
        rw [if_pos (by simp [hm, e0])] at h2
        rw [if_pos (by simp [hm, e1])] at h3
        cases h0
        cases h1
        cases h2
        cases h3
        simp
      · -- head is the first s₀ only
        rw [if_pos (by simp [e0])] at h0
        rw [if_neg (by simp [e1])] at h1
        rw [if_pos (by simp [hm, e0])] at h2
        rw [if_neg (by simp [hm, e1])] at h3
        cases h0
        cases h2
        obtain ⟨ii2, _, hii⟩ := Option.map_eq_some'.1 h1
        obtain ⟨j2, _, hj⟩ := Option.map_eq_some'.1 h3
        omega
      · -- head is the first s₁ only
        rw [if_neg (by simp [e0])] at h0
        rw [if_pos (by simp [e1])] at h1
        rw [if_neg (by simp [hm, e0])] at h2
        rw [if_pos (by simp [hm, e1])] at h3
        cases h1
        cases h3
        obtain ⟨bi2, _, hbi⟩ := Option.map_eq_some'.1 h0
        obtain ⟨i2, _, hi⟩ := Option.map_eq_some'.1 h2
        omega
      · -- head matches neither: both sides shift by one
        rw [if_neg (by simp [e0])] at h0
        rw [if_neg (by simp [e1])] at h1
        rw [if_neg (by simp [hm, e0])] at h2
        rw [if_neg (by simp [hm, e1])] at h3
        obtain ⟨bi2, hb2, hbi⟩ := Option.map_eq_some'.1 h0
        obtain ⟨ii2, hi2, hii⟩ := Option.map_eq_some'.1 h1
        obtain ⟨i2, hx2, hi⟩ := Option.map_eq_some'.1 h2
        obtain ⟨j2, hy2, hj⟩ := Option.map_eq_some'.1 h3
        have := ih s₀ s₁ bi2 ii2 i2 j2 hb2 hi2 hx2 hy2
        omega
    | none =>
      have hst : statusesOf (m :: l) = statusesOf l := by
        simp [statusesOf, List.filterMap_cons, hm]
      rw [hst] at h0 h1
      rw [show (firstIdx (fun x => decide (statusOf x = some s₀)) (m :: l)) =
          (if decide (statusOf m = some s₀) = true then some 0
           else (firstIdx (fun x => decide (statusOf x = some s₀)) l).map
             (· + 1)) from rfl] at h2
      rw [show (firstIdx (fun x => decide (statusOf x = some s₁)) (m :: l)) =
          (if decide (statusOf m = some s₁) = true then some 0
           else (firstIdx (fun x => decide (statusOf x = some s₁)) l).map
             (· + 1)) from rfl] at h3
      rw [if_neg (by simp [hm])] at h2
      rw [if_neg (by simp [hm])] at h3
      obtain ⟨i2, hx2, hi⟩ := Option.map_eq_some'.1 h2
      obtain ⟨j2, hy2, hj⟩ := Option.map_eq_some'.1 h3
      have := ih s₀ s₁ bi ii i2 j2 h0 h1 hx2 hy2
      omega

/-- C9: on a collected trace whose first Status(Busy) is at position `i` and
first Status(Idle) at position `j`, the "status_busy_idle_lifecycle" check
passes iff `i < j`; when either status is absent it returns a `Fail` (with no
kind). -/
theorem status_busy_idle_check_spec (iopub : List JupyterMsg) :
    (∀ i j, firstIdx isBusyMsg iopub = some i →
        firstIdx isIdleStat iopub = some j →
        (busyIdleCheck iopub = TestResult.pass ↔ i < j)) ∧
    ((firstIdx isBusyMsg iopub = none ∨ firstIdx isIdleStat iopub = none) →
      ∃ r, busyIdleCheck iopub = TestResult.fail r none) := by
  constructor
  · intro i j hb hi
    have hb' : firstIdx
        (fun m => decide (statusOf m = some ExecutionState.busy)) iopub =
          some i := hb
    have hi' : firstIdx
        (fun m => decide (statusOf m = some ExecutionState.idle)) iopub =
          some j := hi
    have hAnyB :
        iopub.any (fun m => decide (statusOf m = some ExecutionState.busy)) =
          true := by
      rw [← firstIdx_isSome_any, hb']
      rfl
    have hAnyI :
        iopub.any (fun m => decide (statusOf m = some ExecutionState.idle)) =
          true := by
      rw [← firstIdx_isSome_any, hi']
      rfl
    have hSB :
        (statusesOf iopub).any (fun s => decide (s = ExecutionState.busy)) =
          true := by
      rw [any_statusesOf]
      exact hAnyB
    have hSI :
        (statusesOf iopub).any (fun s => decide (s = ExecutionState.idle)) =
          true := by
      rw [any_statusesOf]
      exact hAnyI
    obtain ⟨bi, hbi⟩ : ∃ bi,
        firstIdx (fun s => decide (s = ExecutionState.busy))
          (statusesOf iopub) = some bi := by
      apply Option.isSome_iff_exists.1
      rw [firstIdx_isSome_any]
      exact hSB
    obtain ⟨ii, hii⟩ : ∃ ii,
        firstIdx (fun s => decide (s = ExecutionState.idle))
          (statusesOf iopub) = some ii := by
      apply Option.isSome_iff_exists.1
      rw [firstIdx_isSome_any]
      exact hSI
    have hiff := firstIdx_statuses_lt iopub ExecutionState.busy
      ExecutionState.idle bi ii i j hbi hii hb' hi'
    simp only [busyIdleCheck]
    rw [hSB, hSI, hbi, hii]
    simp only [Bool.and_true, if_true]
    by_cases hlt : bi < ii
    · rw [if_pos (by simp [rustOptLt, hlt])]
      exact ⟨fun _ => hiff.1 hlt, fun _ => rfl⟩
    · rw [if_neg (by simp [rustOptLt, hlt])]
      constructor
      · intro hcontra
        exact TestResult.noConfusion hcontra
      · intro hij
        exact absurd (hiff.2 hij) hlt
  · intro habs
    simp only [busyIdleCheck]
    rcases habs with hb | hi
    · have hb' : firstIdx
          (fun m => decide (statusOf m = some ExecutionState.busy)) iopub =
            none := hb
      have hAnyB :
          iopub.any (fun m => decide (statusOf m = some ExecutionState.busy)) =
            false := by
        rw [← firstIdx_isSome_any, hb']
        rfl
      have hSB :
          (statusesOf iopub).any (fun s => decide (s = ExecutionState.busy)) =
            false := by
        rw [any_statusesOf]
        exact hAnyB
      rw [hSB]
      simp only [Bool.false_and, Bool.false_eq_true, if_false]
      exact ⟨_, rfl⟩
    · have hi' : firstIdx
          (fun m => decide (statusOf m = some ExecutionState.idle)) iopub =
            none := hi
      have hAnyI :
          iopub.any (fun m => decide (statusOf m = some ExecutionState.idle)) =
            false := by
        rw [← firstIdx_isSome_any, hi']
        rfl
      have hSI :
          (statusesOf iopub).any (fun s => decide (s = ExecutionState.idle)) =
            false := by
        rw [any_statusesOf]
        exact hAnyI
      rw [hSI]
      simp only [Bool.and_false, Bool.false_eq_true, if_false]
      exact ⟨_, rfl⟩

/-- C9 witness: a busy-then-idle trace (with an unrelated message between)
passes the check. -/
theorem status_busy_idle_check_spec_witness :
    busyIdleCheck [busyReqMsg, strayMsg, idleReqMsg] = TestResult.pass :=
  ((status_busy_idle_check_spec [busyReqMsg, strayMsg, idleReqMsg]).1 0 2
    rfl rfl).2 (by decide)
